import Mathlib

/-!
Shallow embedding of the validated data-model layer of the course-catalog
service (src/models/course.py and src/models/department.py, pydantic v2
models).  Payloads are JSON-like objects; validation collects every failing
field before returning an aggregated error, mirroring pydantic's behaviour.
-/

/-- A JSON-like value, the shape of untrusted client payloads. -/
inductive JsonValue where
  | str (s : String)
  | int (n : Int)
  | null
  | arr (xs : List JsonValue)
  | obj (kvs : List (String × JsonValue))

/-- An untrusted payload: a JSON object as an association list. -/
abbrev Payload := List (String × JsonValue)

/-- First binding of a key in a payload (pydantic reads each declared field once). -/
def lookupKey (p : Payload) (k : String) : Option JsonValue :=
  match p.find? (fun kv => decide (kv.fst = k)) with
  | some kv => some kv.snd
  | none => none

def isUpperAlpha (c : Char) : Bool := 65 ≤ c.toNat && c.toNat ≤ 90

def isLowerAlpha (c : Char) : Bool := 97 ≤ c.toNat && c.toNat ≤ 122

def isDigitChar (c : Char) : Bool := 48 ≤ c.toNat && c.toNat ≤ 57

/-- CourseNumberType of src/models/course.py line 12: the string constraint
pattern `[A-Z]{4}` then `[0-9]{4}` then `[A-Z]`, anchored at both ends. -/
def matchesCourseNumber (s : String) : Bool :=
  match s.toList with
  | [a, b, c, d, e, f, g, h, i] =>
    isUpperAlpha a && isUpperAlpha b && isUpperAlpha c && isUpperAlpha d &&
    isDigitChar e && isDigitChar f && isDigitChar g && isDigitChar h &&
    isUpperAlpha i
  | _ => false

/-- Modelled from the spec: UNIType of src/models/person.py, a file this
repository imports but which is absent from src/.  The spec defines the UNI
grammar as lowercase letters followed by digits (examples: dj2390, dff9). -/
def matchesUNI (s : String) : Bool :=
  let cs := s.toList
  let letters := cs.takeWhile isLowerAlpha
  let rest := cs.drop letters.length
  !letters.isEmpty && !rest.isEmpty && rest.all isDigitChar

def splitOnChar (c : Char) (cs : List Char) : List (List Char) :=
  match cs with
  | [] => [[]]
  | a :: rest =>
    let r := splitOnChar c rest
    if a = c then [] :: r
    else
      match r with
      | h :: t => (a :: h) :: t
      | [] => [[a]]

/-- Syntactic email check performed by pydantic's EmailStr on
DepartmentBase.email (third-party validator, deliverability checks off):
one at-sign splitting a non-empty local part from a domain that contains at
least one dot with non-empty labels and no spaces anywhere. -/
def isValidEmail (s : String) : Bool :=
  match splitOnChar '@' s.toList with
  | [lp, dom] =>
    !lp.isEmpty && !dom.isEmpty &&
    (match splitOnChar '.' dom with
     | [_] => false
     | labels => labels.all (fun lbl => !lbl.isEmpty)) &&
    (lp ++ dom).all (fun c => c ≠ ' ')
  | _ => false

/-- Lax integer coercion used by pydantic for `int` fields fed a string. -/
def parseIntString (s : String) : Option Int :=
  match s.toList with
  | [] => none
  | '-' :: rest =>
    if !rest.isEmpty && rest.all isDigitChar then
      some (-(Int.ofNat (rest.foldl (fun acc c => 10 * acc + (c.toNat - 48)) 0)))
    else none
  | cs =>
    if cs.all isDigitChar then
      some (Int.ofNat (cs.foldl (fun acc c => 10 * acc + (c.toNat - 48)) 0))
    else none

/-- A segment of a pydantic error location: a field name or a list index. -/
inductive PathSeg where
  | field (name : String)
  | idx (i : Nat)
deriving DecidableEq, Repr

/-- The kind of a field-level validation error. -/
inductive ErrKind where
  | missing
  | format
  | wrongType
deriving DecidableEq, Repr

/-- One entry of an aggregated validation error: a location and a kind. -/
structure FieldError where
  path : List PathSeg
  kind : ErrKind
deriving DecidableEq, Repr

/-- The errors carried by a validation result (empty on success). -/
def errsOf {α : Type} : Except (List FieldError) α → List FieldError
  | .error es => es
  | .ok _ => []

/-- A required string field (pydantic `Field(...)` on a `str`-typed field),
with `check` the extra string constraint (constantly true when none). -/
def requiredStr (p : Payload) (k : String) (check : String → Bool) :
    Except (List FieldError) String :=
  match lookupKey p k with
  | none => .error [⟨[.field k], .missing⟩]
  | some (.str s) => if check s then .ok s else .error [⟨[.field k], .format⟩]
  | some _ => .error [⟨[.field k], .wrongType⟩]

/-- A required integer field (lax mode: int, or a string parsing as one). -/
def requiredInt (p : Payload) (k : String) : Except (List FieldError) Int :=
  match lookupKey p k with
  | none => .error [⟨[.field k], .missing⟩]
  | some (.int n) => .ok n
  | some (.str s) =>
    match parseIntString s with
    | some n => .ok n
    | none => .error [⟨[.field k], .wrongType⟩]
  | some _ => .error [⟨[.field k], .wrongType⟩]

/-- An `Optional[...] = None` string field: absent or null means unset. -/
def optionalStr (p : Payload) (k : String) (check : String → Bool) :
    Except (List FieldError) (Option String) :=
  match lookupKey p k with
  | none => .ok none
  | some .null => .ok none
  | some (.str s) => if check s then .ok (some s) else .error [⟨[.field k], .format⟩]
  | some _ => .error [⟨[.field k], .wrongType⟩]

/-- An `Optional[int] = None` field. -/
def optionalInt (p : Payload) (k : String) : Except (List FieldError) (Option Int) :=
  match lookupKey p k with
  | none => .ok none
  | some .null => .ok none
  | some (.int n) => .ok (some n)
  | some (.str s) =>
    match parseIntString s with
    | some n => .ok (some n)
    | none => .error [⟨[.field k], .wrongType⟩]
  | some _ => .error [⟨[.field k], .wrongType⟩]

/-- An `Optional[...] = Field(...)` string field: the key must be present
(ellipsis default makes it required) but null is an accepted value. -/
def requiredNullableStr (p : Payload) (k : String) (check : String → Bool) :
    Except (List FieldError) (Option String) :=
  match lookupKey p k with
  | none => .error [⟨[.field k], .missing⟩]
  | some .null => .ok none
  | some (.str s) => if check s then .ok (some s) else .error [⟨[.field k], .format⟩]
  | some _ => .error [⟨[.field k], .wrongType⟩]

/-- The validated shape shared by CourseBase and CourseCreate. -/
structure CourseBase where
  course_number : String
  name : String
  professor_uni : String
  credits : Int
  strength : Int
deriving DecidableEq, Repr

/-- Validation of a CourseBase payload: every field required, course_number
against CourseNumberType, professor_uni against UNIType, name an
unconstrained string, credits and strength integers; all field errors are
collected before the aggregated failure is returned. -/
def validateCourseBase (p : Payload) : Except (List FieldError) CourseBase :=
  let r1 := requiredStr p "course_number" matchesCourseNumber
  let r2 := requiredStr p "name" (fun _ => true)
  let r3 := requiredStr p "professor_uni" matchesUNI
  let r4 := requiredInt p "credits"
  let r5 := requiredInt p "strength"
  match r1, r2, r3, r4, r5 with
  | .ok a, .ok b, .ok c, .ok d, .ok e => .ok ⟨a, b, c, d, e⟩
  | _, _, _, _, _ =>
    .error (errsOf r1 ++ errsOf r2 ++ errsOf r3 ++ errsOf r4 ++ errsOf r5)

/-- CourseCreate adds no field or constraint to CourseBase. -/
def validateCourseCreate (p : Payload) : Except (List FieldError) CourseBase :=
  validateCourseBase p

/-- The validated CourseUpdate patch, with the set of fields the client
explicitly supplied (pydantic's model_fields_set). -/
structure CourseUpdate where
  course_number : Option String
  name : Option String
  credits : Option Int
  professor_uni : Option String
  strength : Option Int
  fieldsSet : List String
deriving DecidableEq, Repr

/-- Declared field names of CourseUpdate, in declaration order. -/
def courseUpdateFields : List String :=
  ["course_number", "name", "credits", "professor_uni", "strength"]

/-- The declared fields a payload explicitly supplies (model_fields_set). -/
def presentFields (p : Payload) (ks : List String) : List String :=
  ks.filter (fun k => (lookupKey p k).isSome)

/-- Validation of a CourseUpdate payload, per src/models/course.py lines
73-107: course_number is annotated Optional[UNIType] (so a present value is
checked against the UNI pattern, not the course-number pattern), name,
credits and strength are optional with default None, and professor_uni is
Optional[UNIType] with an ellipsis default, hence required but nullable. -/
def validateCourseUpdate (p : Payload) : Except (List FieldError) CourseUpdate :=
  let r1 := optionalStr p "course_number" matchesUNI
  let r2 := optionalStr p "name" (fun _ => true)
  let r3 := optionalInt p "credits"
  let r4 := requiredNullableStr p "professor_uni" matchesUNI
  let r5 := optionalInt p "strength"
  match r1, r2, r3, r4, r5 with
  | .ok a, .ok b, .ok c, .ok d, .ok e =>
    .ok ⟨a, b, c, d, e, presentFields p courseUpdateFields⟩
  | _, _, _, _, _ =>
    .error (errsOf r1 ++ errsOf r2 ++ errsOf r3 ++ errsOf r4 ++ errsOf r5)

/-- Validation of one element of a courses_list: it must be an object and
satisfy the full CourseBase validation. -/
def validateCourseElem (v : JsonValue) : Except (List FieldError) CourseBase :=
  match v with
  | .obj kvs => validateCourseBase kvs
  | _ => .error [⟨[], .wrongType⟩]

/-- Attach a path segment in front of every error of a nested validation. -/
def prefixErrors (seg : PathSeg) (es : List FieldError) : List FieldError :=
  es.map (fun e => ⟨seg :: e.path, e.kind⟩)

/-- Validate the elements of a courses_list independently, starting at index
`i`, tagging each element's errors with its index and collecting them all. -/
def validateCoursesAux (i : Nat) (vs : List JsonValue) :
    Except (List FieldError) (List CourseBase) :=
  match vs with
  | [] => .ok []
  | v :: rest =>
    let r1 := validateCourseElem v
    let r2 := validateCoursesAux (i + 1) rest
    match r1, r2 with
    | .ok c, .ok cs => .ok (c :: cs)
    | _, _ => .error (prefixErrors (.idx i) (errsOf r1) ++ errsOf r2)

/-- The required courses_list field: a JSON array whose elements each pass
CourseBase validation, with indexed error locations. -/
def requiredCoursesList (p : Payload) (k : String) :
    Except (List FieldError) (List CourseBase) :=
  match lookupKey p k with
  | none => .error [⟨[.field k], .missing⟩]
  | some (.arr vs) =>
    match validateCoursesAux 0 vs with
    | .ok cs => .ok cs
    | .error es => .error (prefixErrors (.field k) es)
  | some _ => .error [⟨[.field k], .wrongType⟩]

/-- The Optional[List[CourseBase]] = Field(...) field of DepartmentUpdate:
the key must be present, null is accepted, otherwise as requiredCoursesList. -/
def requiredNullableCoursesList (p : Payload) (k : String) :
    Except (List FieldError) (Option (List CourseBase)) :=
  match lookupKey p k with
  | none => .error [⟨[.field k], .missing⟩]
  | some .null => .ok none
  | some (.arr vs) =>
    match validateCoursesAux 0 vs with
    | .ok cs => .ok (some cs)
    | .error es => .error (prefixErrors (.field k) es)
  | some _ => .error [⟨[.field k], .wrongType⟩]

/-- The validated shape shared by DepartmentBase and DepartmentCreate. -/
structure DepartmentBase where
  department_code : String
  name : String
  head_of_department : String
  courses_list : List CourseBase
  email : String
deriving DecidableEq, Repr

/-- Validation of a DepartmentBase payload per src/models/department.py
lines 10-72: department_code and name unconstrained strings,
head_of_department against UNIType, courses_list a list of CourseBase
objects each validated independently, email against EmailStr. -/
def validateDepartmentBase (p : Payload) : Except (List FieldError) DepartmentBase :=
  let r1 := requiredStr p "department_code" (fun _ => true)
  let r2 := requiredStr p "name" (fun _ => true)
  let r3 := requiredStr p "head_of_department" matchesUNI
  let r4 := requiredCoursesList p "courses_list"
  let r5 := requiredStr p "email" isValidEmail
  match r1, r2, r3, r4, r5 with
  | .ok a, .ok b, .ok c, .ok d, .ok e => .ok ⟨a, b, c, d, e⟩
  | _, _, _, _, _ =>
    .error (errsOf r1 ++ errsOf r2 ++ errsOf r3 ++ errsOf r4 ++ errsOf r5)

/-- DepartmentCreate adds no field or constraint to DepartmentBase. -/
def validateDepartmentCreate (p : Payload) : Except (List FieldError) DepartmentBase :=
  validateDepartmentBase p

/-- The validated DepartmentUpdate patch with explicit presence tracking. -/
structure DepartmentUpdate where
  department_code : Option String
  name : Option String
  head_of_department : Option String
  courses_list : Option (List CourseBase)
  email : Option String
  fieldsSet : List String
deriving DecidableEq, Repr

/-- Declared field names of DepartmentUpdate, in declaration order. -/
def departmentUpdateFields : List String :=
  ["department_code", "name", "head_of_department", "courses_list", "email"]

/-- Validation of a DepartmentUpdate payload per src/models/department.py
lines 305-347: every field is annotated Optional but carries an ellipsis
default, so every key must be present (null being an accepted value). -/
def validateDepartmentUpdate (p : Payload) :
    Except (List FieldError) DepartmentUpdate :=
  let r1 := requiredNullableStr p "department_code" (fun _ => true)
  let r2 := requiredNullableStr p "name" (fun _ => true)
  let r3 := requiredNullableStr p "head_of_department" matchesUNI
  let r4 := requiredNullableCoursesList p "courses_list"
  let r5 := requiredNullableStr p "email" isValidEmail
  match r1, r2, r3, r4, r5 with
  | .ok a, .ok b, .ok c, .ok d, .ok e =>
    .ok ⟨a, b, c, d, e, presentFields p departmentUpdateFields⟩
  | _, _, _, _, _ =>
    .error (errsOf r1 ++ errsOf r2 ++ errsOf r3 ++ errsOf r4 ++ errsOf r5)

/-- A server-owned field with a default factory (pydantic default_factory on
id, created_at and updated_at of the Read models): a value supplied in the
payload is used as-is, and the factory value `dflt` is used only when the
key is absent.  Identifiers and timestamps are modelled as integers. -/
def defaultedInt (p : Payload) (k : String) (dflt : Int) :
    Except (List FieldError) Int :=
  match lookupKey p k with
  | none => .ok dflt
  | some (.int n) => .ok n
  | some _ => .error [⟨[.field k], .wrongType⟩]

/-- The server representation of a course (CourseRead). -/
structure CourseRead where
  course_number : String
  name : String
  professor_uni : String
  credits : Int
  strength : Int
  id : Int
  created_at : Int
  updated_at : Int
deriving DecidableEq, Repr

/-- Construction of a CourseRead per src/models/course.py lines 110-144:
the CourseBase fields validated as on create, then id, created_at and
updated_at with server-generated defaults.  `freshId` models the uuid4()
call; `t1` and `t2` model the two datetime.now(timezone.utc) readings taken
in field-declaration order (created_at first, updated_at second). -/
def validateCourseRead (freshId t1 t2 : Int) (p : Payload) :
    Except (List FieldError) CourseRead :=
  let r1 := requiredStr p "course_number" matchesCourseNumber
  let r2 := requiredStr p "name" (fun _ => true)
  let r3 := requiredStr p "professor_uni" matchesUNI
  let r4 := requiredInt p "credits"
  let r5 := requiredInt p "strength"
  let r6 := defaultedInt p "id" freshId
  let r7 := defaultedInt p "created_at" t1
  let r8 := defaultedInt p "updated_at" t2
  match r1, r2, r3, r4, r5, r6, r7, r8 with
  | .ok a, .ok b, .ok c, .ok d, .ok e, .ok f, .ok g, .ok h =>
    .ok ⟨a, b, c, d, e, f, g, h⟩
  | _, _, _, _, _, _, _, _ =>
    .error (errsOf r1 ++ errsOf r2 ++ errsOf r3 ++ errsOf r4 ++ errsOf r5 ++
            errsOf r6 ++ errsOf r7 ++ errsOf r8)

/-- The server representation of a department (DepartmentRead). -/
structure DepartmentRead where
  department_code : String
  name : String
  head_of_department : String
  courses_list : List CourseBase
  email : String
  id : Int
  created_at : Int
  updated_at : Int
deriving DecidableEq, Repr

/-- Construction of a DepartmentRead per src/models/department.py lines
220-269, mirroring validateCourseRead. -/
def validateDepartmentRead (freshId t1 t2 : Int) (p : Payload) :
    Except (List FieldError) DepartmentRead :=
  let r1 := requiredStr p "department_code" (fun _ => true)
  let r2 := requiredStr p "name" (fun _ => true)
  let r3 := requiredStr p "head_of_department" matchesUNI
  let r4 := requiredCoursesList p "courses_list"
  let r5 := requiredStr p "email" isValidEmail
  let r6 := defaultedInt p "id" freshId
  let r7 := defaultedInt p "created_at" t1
  let r8 := defaultedInt p "updated_at" t2
  match r1, r2, r3, r4, r5, r6, r7, r8 with
  | .ok a, .ok b, .ok c, .ok d, .ok e, .ok f, .ok g, .ok h =>
    .ok ⟨a, b, c, d, e, f, g, h⟩
  | _, _, _, _, _, _, _, _ =>
    .error (errsOf r1 ++ errsOf r2 ++ errsOf r3 ++ errsOf r4 ++ errsOf r5 ++
            errsOf r6 ++ errsOf r7 ++ errsOf r8)

/-- Modelled from the spec: the merge of a validated CourseUpdate into a
stored CourseRead is performed by the external persistence collaborator,
whose code is not under src/.  Per the spec's lifecycle, present fields
overwrite, id and created_at are kept, and updated_at is refreshed to the
merge instant `now`. -/
def applyCourseUpdate (r : CourseRead) (u : CourseUpdate) (now : Int) : CourseRead :=
  { course_number := u.course_number.getD r.course_number
    name := u.name.getD r.name
    professor_uni := u.professor_uni.getD r.professor_uni
    credits := u.credits.getD r.credits
    strength := u.strength.getD r.strength
    id := r.id
    created_at := r.created_at
    updated_at := now }

/-- Modelled from the spec: the persistence collaborator's merge of a
validated DepartmentUpdate into a stored DepartmentRead, as for courses. -/
def applyDepartmentUpdate (r : DepartmentRead) (u : DepartmentUpdate) (now : Int) :
    DepartmentRead :=
  { department_code := u.department_code.getD r.department_code
    name := u.name.getD r.name
    head_of_department := u.head_of_department.getD r.head_of_department
    courses_list := u.courses_list.getD r.courses_list
    email := u.email.getD r.email
    id := r.id
    created_at := r.created_at
    updated_at := now }

/-- Declared field names of CourseBase (and CourseCreate), in order. -/
def courseBaseFields : List String :=
  ["course_number", "name", "professor_uni", "credits", "strength"]

/-- Declared field names of DepartmentBase (and DepartmentCreate), in order. -/
def departmentBaseFields : List String :=
  ["department_code", "name", "head_of_department", "courses_list", "email"]

/-- The spec's example of a fully valid course-creation payload. -/
def cloudCoursePayload : Payload :=
  [("course_number", .str "COMS4153W"), ("name", .str "Cloud Computing"),
   ("professor_uni", .str "dj2390"), ("credits", .int 3), ("strength", .int 120)]

/-- A course payload whose name field is the parameter, all else valid. -/
def courseNamed (nm : String) : Payload :=
  [("course_number", .str "COMS4153W"), ("name", .str nm),
   ("professor_uni", .str "dj2390"), ("credits", .int 3), ("strength", .int 120)]

/-- The spec's all-failing scenario payload for aggregated errors. -/
def c6Payload : Payload :=
  [("course_number", .str "cs101"), ("name", .str ""),
   ("professor_uni", .str "123"), ("credits", .str "x"), ("strength", .int 120)]

/-- The aggregated error the code produces on c6Payload. -/
def c6Errors : List FieldError :=
  [⟨[.field "course_number"], .format⟩, ⟨[.field "professor_uni"], .format⟩,
   ⟨[.field "credits"], .wrongType⟩]

/-- A department payload with parametric code and name, all else valid. -/
def deptNamed (code nm : String) : Payload :=
  [("department_code", .str code), ("name", .str nm),
   ("head_of_department", .str "sf2303"), ("courses_list", .arr []),
   ("email", .str "cs@columbia.edu")]

/-- A department payload with parametric email, all else valid. -/
def deptWithEmail (e : String) : Payload :=
  [("department_code", .str "COMS"), ("name", .str "Computer Science"),
   ("head_of_department", .str "sf2303"), ("courses_list", .arr []),
   ("email", .str e)]

/-- A course object invalid only in its course_number. -/
def badCoursePayload : Payload :=
  [("course_number", .str "cs101"), ("name", .str "Bad Course"),
   ("professor_uni", .str "ab12"), ("credits", .int 3), ("strength", .int 50)]

/-- The spec's scenario: a department whose courses_list holds one valid and
one invalid course object. -/
def mixedDeptPayload : Payload :=
  [("department_code", .str "COMS"), ("name", .str "Computer Science"),
   ("head_of_department", .str "sf2303"),
   ("courses_list", .arr [.obj cloudCoursePayload, .obj badCoursePayload]),
   ("email", .str "cs@columbia.edu")]

/-- A CourseUpdate payload omitting course_number and credits, supplying
name explicitly as null, and supplying professor_uni and strength. -/
def cuPresencePayload : Payload :=
  [("name", .null), ("professor_uni", .str "dj2390"), ("strength", .int 60)]

/-- A DepartmentUpdate payload supplying every key, four of them as null. -/
def duPresencePayload : Payload :=
  [("department_code", .null), ("name", .str "CS"),
   ("head_of_department", .null), ("courses_list", .null), ("email", .null)]

/-- A course payload that also supplies the server-owned fields. -/
def c5Payload : Payload :=
  ("id", .int 42) :: ("created_at", .int 100) :: ("updated_at", .int 200) ::
    cloudCoursePayload

theorem lookupKey_cons_ne {k0 k : String} (v : JsonValue) (p : Payload)
    (h : k0 ≠ k) : lookupKey ((k0, v) :: p) k = lookupKey p k := by
  simp [lookupKey, List.find?, h]

theorem requiredStr_cons_ne {k0 k : String} (v : JsonValue) (p : Payload)
    (c : String → Bool) (h : k0 ≠ k) :
    requiredStr ((k0, v) :: p) k c = requiredStr p k c := by
  unfold requiredStr
  rw [lookupKey_cons_ne v p h]

theorem requiredInt_cons_ne {k0 k : String} (v : JsonValue) (p : Payload)
    (h : k0 ≠ k) : requiredInt ((k0, v) :: p) k = requiredInt p k := by
  unfold requiredInt
  rw [lookupKey_cons_ne v p h]

theorem optionalStr_cons_ne {k0 k : String} (v : JsonValue) (p : Payload)
    (c : String → Bool) (h : k0 ≠ k) :
    optionalStr ((k0, v) :: p) k c = optionalStr p k c := by
  unfold optionalStr
  rw [lookupKey_cons_ne v p h]

theorem optionalInt_cons_ne {k0 k : String} (v : JsonValue) (p : Payload)
    (h : k0 ≠ k) : optionalInt ((k0, v) :: p) k = optionalInt p k := by
  unfold optionalInt
  rw [lookupKey_cons_ne v p h]

theorem requiredNullableStr_cons_ne {k0 k : String} (v : JsonValue) (p : Payload)
    (c : String → Bool) (h : k0 ≠ k) :
    requiredNullableStr ((k0, v) :: p) k c = requiredNullableStr p k c := by
  unfold requiredNullableStr
  rw [lookupKey_cons_ne v p h]

theorem requiredCoursesList_cons_ne {k0 k : String} (v : JsonValue) (p : Payload)
    (h : k0 ≠ k) : requiredCoursesList ((k0, v) :: p) k = requiredCoursesList p k := by
  unfold requiredCoursesList
  rw [lookupKey_cons_ne v p h]

theorem requiredNullableCoursesList_cons_ne {k0 k : String} (v : JsonValue)
    (p : Payload) (h : k0 ≠ k) :
    requiredNullableCoursesList ((k0, v) :: p) k = requiredNullableCoursesList p k := by
  unfold requiredNullableCoursesList
  rw [lookupKey_cons_ne v p h]

theorem presentFields_cons_notMem {k0 : String} (v : JsonValue) (p : Payload)
    {ks : List String} (h : k0 ∉ ks) :
    presentFields ((k0, v) :: p) ks = presentFields p ks := by
  unfold presentFields
  apply List.filter_congr
  intro a ha
  have hne : k0 ≠ a := by
    intro hh
    exact h (hh ▸ ha)
  rw [lookupKey_cons_ne v p hne]

theorem requiredCoursesList_arr (p : Payload) (k : String) (vs : List JsonValue)
    (h : lookupKey p k = some (.arr vs)) :
    requiredCoursesList p k =
      match validateCoursesAux 0 vs with
      | .ok cs => .ok cs
      | .error es => .error (prefixErrors (.field k) es) := by
  unfold requiredCoursesList
  rw [h]

theorem errsOf_ne_nil {α : Type} (r : Except (List FieldError) α)
    (h : errsOf r ≠ []) : r = .error (errsOf r) := by
  cases r with
  | error es => rfl
  | ok a => simp [errsOf] at h

theorem errsOf_coursesAux_cons (i : Nat) (v : JsonValue) (vs : List JsonValue) :
    errsOf (validateCoursesAux i (v :: vs)) =
      prefixErrors (.idx i) (errsOf (validateCourseElem v)) ++
        errsOf (validateCoursesAux (i + 1) vs) := by
  simp only [validateCoursesAux]
  cases validateCourseElem v <;>
    cases validateCoursesAux (i + 1) vs <;>
    simp [errsOf, prefixErrors]

theorem coursesAux_mem (vs : List JsonValue) :
    ∀ (i j : Nat) (v : JsonValue) (e : FieldError),
    vs.get? j = some v → e ∈ errsOf (validateCourseElem v) →
    FieldError.mk (PathSeg.idx (i + j) :: e.path) e.kind ∈
      errsOf (validateCoursesAux i vs) := by
  induction vs with
  | nil =>
    intro i j v e hv _
    simp [List.get?] at hv
  | cons v0 rest ih =>
    intro i j v e hv he
    rw [errsOf_coursesAux_cons]
    cases j with
    | zero =>
      simp only [List.get?] at hv
      cases hv
      apply List.mem_append_left
      have := List.mem_map_of_mem (fun e0 => FieldError.mk (PathSeg.idx i :: e0.path) e0.kind) he
      simpa [prefixErrors] using this
    | succ j0 =>
      apply List.mem_append_right
      have hv0 : rest.get? j0 = some v := by simpa [List.get?] using hv
      have := ih (i + 1) j0 v e hv0 he
      have harith : i + 1 + j0 = i + (j0 + 1) := by omega
      rwa [harith] at this

theorem errsOf_validateDepartmentBase (p : Payload) :
    errsOf (validateDepartmentBase p) =
      errsOf (requiredStr p "department_code" (fun _ => true)) ++
      errsOf (requiredStr p "name" (fun _ => true)) ++
      errsOf (requiredStr p "head_of_department" matchesUNI) ++
      errsOf (requiredCoursesList p "courses_list") ++
      errsOf (requiredStr p "email" isValidEmail) := by
  simp only [validateDepartmentBase]
  cases requiredStr p "department_code" (fun _ => true) <;>
    cases requiredStr p "name" (fun _ => true) <;>
    cases requiredStr p "head_of_department" matchesUNI <;>
    cases requiredCoursesList p "courses_list" <;>
    cases requiredStr p "email" isValidEmail <;>
    simp [errsOf]

theorem courseUpdate_ok_fieldsSet (p : Payload) (u : CourseUpdate)
    (h : validateCourseUpdate p = .ok u) :
    u.fieldsSet = presentFields p courseUpdateFields := by
  simp only [validateCourseUpdate] at h
  split at h
  · cases h
    rfl
  · cases h

theorem departmentUpdate_ok_fieldsSet (p : Payload) (u : DepartmentUpdate)
    (h : validateDepartmentUpdate p = .ok u) :
    u.fieldsSet = presentFields p departmentUpdateFields := by
  simp only [validateDepartmentUpdate] at h
  split at h
  · cases h
    rfl
  · cases h

theorem defaultedInt_of_absent (p : Payload) (k : String) (d : Int)
    (h : lookupKey p k = none) : defaultedInt p k d = .ok d := by
  unfold defaultedInt
  rw [h]

theorem courseRead_ok_fields (freshId t1 t2 : Int) (p : Payload) (r : CourseRead)
    (hr : validateCourseRead freshId t1 t2 p = .ok r) :
    defaultedInt p "id" freshId = .ok r.id ∧
    defaultedInt p "created_at" t1 = .ok r.created_at ∧
    defaultedInt p "updated_at" t2 = .ok r.updated_at := by
  simp only [validateCourseRead] at hr
  split at hr
  · cases hr
    refine ⟨?_, ?_, ?_⟩ <;> assumption
  · cases hr

theorem departmentRead_ok_fields (freshId t1 t2 : Int) (p : Payload)
    (r : DepartmentRead) (hr : validateDepartmentRead freshId t1 t2 p = .ok r) :
    defaultedInt p "id" freshId = .ok r.id ∧
    defaultedInt p "created_at" t1 = .ok r.created_at ∧
    defaultedInt p "updated_at" t2 = .ok r.updated_at := by
  simp only [validateDepartmentRead] at hr
  split at hr
  · cases hr
    refine ⟨?_, ?_, ?_⟩ <;> assumption
  · cases hr

/-- C1: the claim states that everywhere a course_number is supplied,
validation succeeds iff the string matches the course-number pattern.  The
code violates this in the CourseUpdate role: src/models/course.py line 76
annotates course_number as Optional of UNIType, so a present course_number
is checked against the UNI grammar instead.  This evaluation shows the
pattern-matching string COMS4995W (the field's own documented example)
being rejected with a FormatError on course_number, while the UNI string
dj2390 is accepted as a course_number. -/
theorem C1_course_number_update_bug :
    matchesCourseNumber "COMS4995W" = true ∧
    validateCourseUpdate
        [("course_number", .str "COMS4995W"), ("professor_uni", .str "dj2390")] =
      .error [⟨[.field "course_number"], .format⟩] ∧
    validateCourseUpdate
        [("course_number", .str "dj2390"), ("professor_uni", .str "dj2390")] =
      .ok ⟨some "dj2390", none, none, some "dj2390", none,
           ["course_number", "professor_uni"]⟩ :=
  ⟨rfl, rfl, rfl⟩

/-- C2: the claim states that every Update field is optional and the
payload with only strength set to 60 validates.  The code violates this:
CourseUpdate.professor_uni (src/models/course.py line 90) and all five
DepartmentUpdate fields (src/models/department.py lines 305-338) carry an
ellipsis default, making them required.  The code rejects its own
documented example payloads, as these evaluations show. -/
theorem C2_update_fields_required_bug :
    validateCourseUpdate [("strength", .int 60)] =
      .error [⟨[.field "professor_uni"], .missing⟩] ∧
    validateDepartmentUpdate [("name", .str "Industry and Engineering")] =
      .error [⟨[.field "department_code"], .missing⟩,
              ⟨[.field "head_of_department"], .missing⟩,
              ⟨[.field "courses_list"], .missing⟩,
              ⟨[.field "email"], .missing⟩] :=
  ⟨rfl, rfl⟩

/-- C3: after a successful Update validation, a declared field belongs to
the validated patch's fieldsSet exactly when the payload supplied the key,
so a caller can distinguish an omitted field (absent from fieldsSet) from
one explicitly supplied as null (present in fieldsSet with value none). -/
theorem C3_presence_tracking (p q : Payload) (u : CourseUpdate)
    (d : DepartmentUpdate) (hu : validateCourseUpdate p = .ok u)
    (hd : validateDepartmentUpdate q = .ok d) :
    (∀ k ∈ courseUpdateFields, k ∈ u.fieldsSet ↔ (lookupKey p k).isSome) ∧
    (∀ k ∈ departmentUpdateFields, k ∈ d.fieldsSet ↔ (lookupKey q k).isSome) := by
  constructor
  · intro k hk
    rw [courseUpdate_ok_fieldsSet p u hu]
    simp [presentFields, List.mem_filter, hk]
  · intro k hk
    rw [departmentUpdate_ok_fieldsSet q d hd]
    simp [presentFields, List.mem_filter, hk]

/-- C3 witness: a CourseUpdate payload omitting course_number and credits
while supplying name as null, and a DepartmentUpdate payload supplying all
five keys with four nulls. -/
theorem C3_presence_tracking_witness :
    (∀ k ∈ courseUpdateFields,
      k ∈ (CourseUpdate.mk none none none (some "dj2390") (some 60)
            ["name", "professor_uni", "strength"]).fieldsSet ↔
        (lookupKey cuPresencePayload k).isSome) ∧
    (∀ k ∈ departmentUpdateFields,
      k ∈ (DepartmentUpdate.mk none (some "CS") none none none
            departmentUpdateFields).fieldsSet ↔
        (lookupKey duPresencePayload k).isSome) :=
  C3_presence_tracking cuPresencePayload duPresencePayload _ _ rfl rfl

/-- C4 counterexample: the claim says an empty name or department_code is
rejected, but the code declares these as plain str fields with no
constraint, so empty strings validate successfully. -/
theorem C4_counterexample :
    validateCourseCreate (courseNamed "") =
      .ok ⟨"COMS4153W", "", "dj2390", 3, 120⟩ ∧
    validateDepartmentCreate (deptNamed "" "") =
      .ok ⟨"", "", "sf2303", [], "cs@columbia.edu"⟩ :=
  ⟨rfl, rfl⟩

/-- C4 amended: Course.name, Department.name and Department.department_code
accept every string, the empty string included; only the string type is
enforced, with no non-emptiness or format constraint. -/
theorem C4_amended (code nm : String) :
    validateCourseCreate (courseNamed nm) =
      .ok ⟨"COMS4153W", nm, "dj2390", 3, 120⟩ ∧
    validateDepartmentCreate (deptNamed code nm) =
      .ok ⟨code, nm, "sf2303", [], "cs@columbia.edu"⟩ :=
  ⟨rfl, rfl⟩

/-- C5 counterexample: the claim says id, created_at and updated_at are
never accepted from the client.  The code declares them with pydantic
default factories, which only supply a value when the key is absent: the
same server context (id 7, clock readings 10 and 11) yields id 42 and
timestamps 100 and 200 when the payload supplies them, and the
server-generated values when it does not, so the result is not independent
of the payload. -/
theorem C5_counterexample :
    validateCourseRead 7 10 11 c5Payload =
      .ok ⟨"COMS4153W", "Cloud Computing", "dj2390", 3, 120, 42, 100, 200⟩ ∧
    validateCourseRead 7 10 11 cloudCoursePayload =
      .ok ⟨"COMS4153W", "Cloud Computing", "dj2390", 3, 120, 7, 10, 11⟩ :=
  ⟨rfl, rfl⟩

/-- C5 amended: id, created_at and updated_at are server-generated by
default: whenever the payload does not supply these keys, the constructed
CourseRead or DepartmentRead carries exactly the server-generated identifier
and clock readings; a payload that does supply them overrides the defaults
(the model layer itself never rejects client-supplied values). -/
theorem C5_amended (freshId t1 t2 : Int) (p q : Payload) (r : CourseRead)
    (d : DepartmentRead)
    (hp1 : lookupKey p "id" = none) (hp2 : lookupKey p "created_at" = none)
    (hp3 : lookupKey p "updated_at" = none)
    (hr : validateCourseRead freshId t1 t2 p = .ok r)
    (hq1 : lookupKey q "id" = none) (hq2 : lookupKey q "created_at" = none)
    (hq3 : lookupKey q "updated_at" = none)
    (hd : validateDepartmentRead freshId t1 t2 q = .ok d) :
    (r.id = freshId ∧ r.created_at = t1 ∧ r.updated_at = t2) ∧
    (d.id = freshId ∧ d.created_at = t1 ∧ d.updated_at = t2) := by
  obtain ⟨h1, h2, h3⟩ := courseRead_ok_fields freshId t1 t2 p r hr
  obtain ⟨g1, g2, g3⟩ := departmentRead_ok_fields freshId t1 t2 q d hd
  rw [defaultedInt_of_absent p "id" freshId hp1] at h1
  rw [defaultedInt_of_absent p "created_at" t1 hp2] at h2
  rw [defaultedInt_of_absent p "updated_at" t2 hp3] at h3
  rw [defaultedInt_of_absent q "id" freshId hq1] at g1
  rw [defaultedInt_of_absent q "created_at" t1 hq2] at g2
  rw [defaultedInt_of_absent q "updated_at" t2 hq3] at g3
  injection h1 with h1
  injection h2 with h2
  injection h3 with h3
  injection g1 with g1
  injection g2 with g2
  injection g3 with g3
  exact ⟨⟨h1.symm, h2.symm, h3.symm⟩, ⟨g1.symm, g2.symm, g3.symm⟩⟩

/-- C5 witness: payloads supplying none of the server-owned keys. -/
theorem C5_amended_witness :
    ((⟨"COMS4153W", "Cloud Computing", "dj2390", 3, 120, 7, 10, 11⟩ :
        CourseRead).id = 7 ∧
      (⟨"COMS4153W", "Cloud Computing", "dj2390", 3, 120, 7, 10, 11⟩ :
        CourseRead).created_at = 10 ∧
      (⟨"COMS4153W", "Cloud Computing", "dj2390", 3, 120, 7, 10, 11⟩ :
        CourseRead).updated_at = 11) ∧
    ((⟨"COMS", "Computer Science", "sf2303", [], "cs@columbia.edu", 7, 10, 11⟩ :
        DepartmentRead).id = 7 ∧
      (⟨"COMS", "Computer Science", "sf2303", [], "cs@columbia.edu", 7, 10, 11⟩ :
        DepartmentRead).created_at = 10 ∧
      (⟨"COMS", "Computer Science", "sf2303", [], "cs@columbia.edu", 7, 10, 11⟩ :
        DepartmentRead).updated_at = 11) :=
  C5_amended 7 10 11 cloudCoursePayload (deptWithEmail "cs@columbia.edu") _ _
    rfl rfl rfl rfl rfl rfl rfl rfl

/-- C6 counterexample: on the spec's all-failing scenario payload the
aggregated error holds exactly three field errors, and none of them is on
the field name, contradicting the claimed at-least-four errors with name
among them: the code enforces no non-emptiness on name. -/
theorem C6_counterexample :
    validateCourseCreate c6Payload = .error c6Errors ∧
    c6Errors.length = 3 ∧
    FieldError.mk [.field "name"] .format ∉ c6Errors ∧
    FieldError.mk [.field "name"] .missing ∉ c6Errors ∧
    FieldError.mk [.field "name"] .wrongType ∉ c6Errors := by
  refine ⟨rfl, rfl, ?_, ?_, ?_⟩ <;> decide

/-- C6 amended: on that payload validation fails with one aggregated error
collecting all three failing fields together, course_number,
professor_uni and credits (name passes, as the code enforces no non-empty
constraint on it), and no record is produced. -/
theorem C6_aggregated_errors :
    validateCourseCreate c6Payload = .error c6Errors ∧
    FieldError.mk [.field "course_number"] .format ∈ c6Errors ∧
    FieldError.mk [.field "professor_uni"] .format ∈ c6Errors ∧
    FieldError.mk [.field "credits"] .wrongType ∈ c6Errors ∧
    ∀ r : CourseBase, validateCourseCreate c6Payload ≠ .ok r := by
  refine ⟨rfl, by decide, by decide, by decide, ?_⟩
  intro r h
  rw [show validateCourseCreate c6Payload = .error c6Errors from rfl] at h
  exact Except.noConfusion h

/-- C7: every element of a DepartmentCreate courses_list is independently
validated against the CourseBase constraints, and whenever the element at
index j fails with a field error, the department validation fails with an
aggregated error containing that error under the path
courses_list, index j, field. -/
theorem C7_indexed_course_errors (p : Payload) (vs : List JsonValue) (j : Nat)
    (v : JsonValue) (e : FieldError)
    (hcl : lookupKey p "courses_list" = some (.arr vs))
    (hv : vs.get? j = some v)
    (he : e ∈ errsOf (validateCourseElem v)) :
    ∃ es, validateDepartmentCreate p = .error es ∧
      FieldError.mk (.field "courses_list" :: .idx j :: e.path) e.kind ∈ es := by
  have hm : FieldError.mk (PathSeg.idx j :: e.path) e.kind ∈
      errsOf (validateCoursesAux 0 vs) := by
    have := coursesAux_mem vs 0 j v e hv he
    simpa using this
  have hcl2 : FieldError.mk (.field "courses_list" :: .idx j :: e.path) e.kind ∈
      errsOf (requiredCoursesList p "courses_list") := by
    obtain ⟨es0, haux⟩ : ∃ es0, validateCoursesAux 0 vs = .error es0 := by
      cases hx : validateCoursesAux 0 vs with
      | ok cs =>
        rw [hx] at hm
        simp [errsOf] at hm
      | error es0 => exact ⟨es0, rfl⟩
    rw [haux] at hm
    rw [requiredCoursesList_arr p "courses_list" vs hcl, haux]
    exact List.mem_map_of_mem
      (fun e0 => FieldError.mk (PathSeg.field "courses_list" :: e0.path) e0.kind) hm
  have hdep : FieldError.mk (.field "courses_list" :: .idx j :: e.path) e.kind ∈
      errsOf (validateDepartmentBase p) := by
    rw [errsOf_validateDepartmentBase]
    simp only [List.mem_append]
    tauto
  have hne : errsOf (validateDepartmentBase p) ≠ [] := by
    intro hnil
    rw [hnil] at hdep
    exact List.not_mem_nil _ hdep
  refine ⟨errsOf (validateDepartmentBase p), ?_, hdep⟩
  exact errsOf_ne_nil _ hne

/-- C7 witness: the spec's scenario of a courses_list with one valid and
one invalid course, the invalid one reported at index 1 on course_number. -/
theorem C7_indexed_course_errors_witness :
    ∃ es, validateDepartmentCreate mixedDeptPayload = .error es ∧
      FieldError.mk [.field "courses_list", .idx 1, .field "course_number"]
        .format ∈ es :=
  C7_indexed_course_errors mixedDeptPayload
    [.obj cloudCoursePayload, .obj badCoursePayload] 1 (.obj badCoursePayload)
    ⟨[.field "course_number"], .format⟩ rfl rfl (by decide)

/-- C8: on a DepartmentCreate payload the email field validates exactly
when the string passes the email syntax check (one at-sign, non-empty
local part, domain with at least one dot and non-empty labels); the
address cs@columbia.edu succeeds and not-an-email fails with a FormatError
on the field email. -/
theorem C8_email_validation :
    (∀ s : String, validateDepartmentCreate (deptWithEmail s) =
      if isValidEmail s then
        .ok ⟨"COMS", "Computer Science", "sf2303", [], s⟩
      else .error [⟨[.field "email"], .format⟩]) ∧
    validateDepartmentCreate (deptWithEmail "cs@columbia.edu") =
      .ok ⟨"COMS", "Computer Science", "sf2303", [], "cs@columbia.edu"⟩ ∧
    validateDepartmentCreate (deptWithEmail "not-an-email") =
      .error [⟨[.field "email"], .format⟩] := by
  refine ⟨fun s => ?_, rfl, rfl⟩
  have hemail : requiredStr (deptWithEmail s) "email" isValidEmail =
      if isValidEmail s then .ok s
      else .error [⟨[.field "email"], .format⟩] := rfl
  simp only [validateDepartmentCreate, validateDepartmentBase, hemail]
  cases h : isValidEmail s <;> rfl

/-- C9: when a CourseRead or DepartmentRead is constructed with
server-generated timestamps (the payload supplying neither) and the two
clock readings taken in field order satisfy t1 le t2, the record satisfies
created_at le updated_at immediately after creation; and the persistence
merge of any later update leaves created_at unchanged. -/
theorem C9_timestamps (freshId t1 t2 : Int) (p q : Payload) (r : CourseRead)
    (d : DepartmentRead)
    (hp2 : lookupKey p "created_at" = none) (hp3 : lookupKey p "updated_at" = none)
    (hq2 : lookupKey q "created_at" = none) (hq3 : lookupKey q "updated_at" = none)
    (hmono : t1 ≤ t2)
    (hr : validateCourseRead freshId t1 t2 p = .ok r)
    (hd : validateDepartmentRead freshId t1 t2 q = .ok d) :
    (r.created_at ≤ r.updated_at ∧
      ∀ u now, (applyCourseUpdate r u now).created_at = r.created_at) ∧
    (d.created_at ≤ d.updated_at ∧
      ∀ u now, (applyDepartmentUpdate d u now).created_at = d.created_at) := by
  obtain ⟨-, h2, h3⟩ := courseRead_ok_fields freshId t1 t2 p r hr
  obtain ⟨-, g2, g3⟩ := departmentRead_ok_fields freshId t1 t2 q d hd
  rw [defaultedInt_of_absent p "created_at" t1 hp2] at h2
  rw [defaultedInt_of_absent p "updated_at" t2 hp3] at h3
  rw [defaultedInt_of_absent q "created_at" t1 hq2] at g2
  rw [defaultedInt_of_absent q "updated_at" t2 hq3] at g3
  injection h2 with h2
  injection h3 with h3
  injection g2 with g2
  injection g3 with g3
  refine ⟨⟨?_, fun u now => rfl⟩, ?_, fun u now => rfl⟩
  · rw [← h2, ← h3]
    exact hmono
  · rw [← g2, ← g3]
    exact hmono

/-- C9 witness: concrete construction with clock readings 10 then 11. -/
theorem C9_timestamps_witness :
    ((⟨"COMS4153W", "Cloud Computing", "dj2390", 3, 120, 7, 10, 11⟩ :
        CourseRead).created_at ≤
      (⟨"COMS4153W", "Cloud Computing", "dj2390", 3, 120, 7, 10, 11⟩ :
        CourseRead).updated_at ∧
      ∀ u now, (applyCourseUpdate
          ⟨"COMS4153W", "Cloud Computing", "dj2390", 3, 120, 7, 10, 11⟩
          u now).created_at =
        (⟨"COMS4153W", "Cloud Computing", "dj2390", 3, 120, 7, 10, 11⟩ :
          CourseRead).created_at) ∧
    ((⟨"COMS", "Computer Science", "sf2303", [], "cs@columbia.edu", 7, 10, 11⟩ :
        DepartmentRead).created_at ≤
      (⟨"COMS", "Computer Science", "sf2303", [], "cs@columbia.edu", 7, 10, 11⟩ :
        DepartmentRead).updated_at ∧
      ∀ u now, (applyDepartmentUpdate
          ⟨"COMS", "Computer Science", "sf2303", [], "cs@columbia.edu", 7, 10, 11⟩
          u now).created_at =
        (⟨"COMS", "Computer Science", "sf2303", [], "cs@columbia.edu", 7, 10,
          11⟩ : DepartmentRead).created_at) :=
  C9_timestamps 7 10 11 cloudCoursePayload (deptWithEmail "cs@columbia.edu") _ _
    rfl rfl rfl rfl (by decide) rfl rfl

/-- C10: payload keys that match no declared field are silently ignored by
every Create and Update model: prepending an unknown key to any payload
leaves each validation result, records and errors alike, unchanged. -/
theorem C10_unknown_keys_ignored (k : String) (v : JsonValue) (p : Payload)
    (h1 : k ∉ courseBaseFields) (h2 : k ∉ courseUpdateFields)
    (h3 : k ∉ departmentBaseFields) (h4 : k ∉ departmentUpdateFields) :
    validateCourseCreate ((k, v) :: p) = validateCourseCreate p ∧
    validateCourseUpdate ((k, v) :: p) = validateCourseUpdate p ∧
    validateDepartmentCreate ((k, v) :: p) = validateDepartmentCreate p ∧
    validateDepartmentUpdate ((k, v) :: p) = validateDepartmentUpdate p := by
  have h2' := h2
  have h4' := h4
  simp only [courseBaseFields, courseUpdateFields, departmentBaseFields,
    departmentUpdateFields, List.mem_cons, List.mem_singleton, not_or] at h1 h2 h3 h4
  obtain ⟨a1, a2, a3, a4, a5, -⟩ := h1
  obtain ⟨b1, b2, b3, b4, b5, -⟩ := h2
  obtain ⟨c1, c2, c3, c4, c5, -⟩ := h3
  obtain ⟨d1, d2, d3, d4, d5, -⟩ := h4
  refine ⟨?_, ?_, ?_, ?_⟩
  · simp only [validateCourseCreate, validateCourseBase]
    rw [requiredStr_cons_ne v p matchesCourseNumber a1,
      requiredStr_cons_ne v p (fun _ => true) a2,
      requiredStr_cons_ne v p matchesUNI a3,
      requiredInt_cons_ne v p a4, requiredInt_cons_ne v p a5]
  · simp only [validateCourseUpdate]
    rw [optionalStr_cons_ne v p matchesUNI b1,
      optionalStr_cons_ne v p (fun _ => true) b2,
      optionalInt_cons_ne v p b3,
      requiredNullableStr_cons_ne v p matchesUNI b4,
      optionalInt_cons_ne v p b5,
      presentFields_cons_notMem v p h2']
  · simp only [validateDepartmentCreate, validateDepartmentBase]
    rw [requiredStr_cons_ne v p (fun _ => true) c1,
      requiredStr_cons_ne v p (fun _ => true) c2,
      requiredStr_cons_ne v p matchesUNI c3,
      requiredCoursesList_cons_ne v p c4,
      requiredStr_cons_ne v p isValidEmail c5]
  · simp only [validateDepartmentUpdate]
    rw [requiredNullableStr_cons_ne v p (fun _ => true) d1,
      requiredNullableStr_cons_ne v p (fun _ => true) d2,
      requiredNullableStr_cons_ne v p matchesUNI d3,
      requiredNullableCoursesList_cons_ne v p d4,
      requiredNullableStr_cons_ne v p isValidEmail d5,
      presentFields_cons_notMem v p h4']

/-- C10 witness: an unknown key added to the valid course payload. -/
theorem C10_unknown_keys_ignored_witness :
    validateCourseCreate (("extra", .null) :: cloudCoursePayload) =
      validateCourseCreate cloudCoursePayload ∧
    validateCourseUpdate (("extra", .null) :: cloudCoursePayload) =
      validateCourseUpdate cloudCoursePayload ∧
    validateDepartmentCreate (("extra", .null) :: cloudCoursePayload) =
      validateDepartmentCreate cloudCoursePayload ∧
    validateDepartmentUpdate (("extra", .null) :: cloudCoursePayload) =
      validateDepartmentUpdate cloudCoursePayload :=
  C10_unknown_keys_ignored "extra" .null cloudCoursePayload
    (by decide) (by decide) (by decide) (by decide)
